import Mathlib

/-!
Shallow embedding of the adk-course repository (an LLM weather-agent service):
* `src/weather_agent/agent.py` — the three resolver tools
  (`get_coordinates`, `get_local_time_info`, `get_weather_forecast`),
  each returning a tagged success/error dictionary; external backends
  (geocoder, timezone index, weather HTTP API, wall clock) are passed in
  as oracle functions, with `Except` capturing a raised exception.
* `src/api/main.py` — the FastAPI facade: request validation
  (`QueryRequest`), agent initialization (`initialize_agent`, `lifespan`),
  the query runner (`run_query` with its session create-or-reuse step and
  event-draining loop), and the `/query` endpoint handler.

Machine reals (Python floats for latitude/longitude/temperature) are
represented by `Rat`; every claim only moves these values around, never
computes with them.  Timestamps from the forecast provider are unix
seconds (`Int`).  The in-memory session service owned by the external ADK
runtime is modelled as an explicit state threaded through `run_query`.
-/

namespace AdkCourse

/-! ## Tagged tool results (§3 ToolResult)

Every resolver in `src/weather_agent/agent.py` returns a Python dict with
a `"status"` key that is `"success"` (plus a payload) or `"error"` (plus
an `error_message`).  We embed that shape as a tagged union. -/

inductive ToolResult (α : Type) where
  | success (payload : α) : ToolResult α
  | error (error_message : String) : ToolResult α
deriving DecidableEq, Repr

/-- The `"status"` field of the returned dict. -/
def ToolResult.statusOf {α : Type} : ToolResult α → String
  | .success _ => "success"
  | .error _ => "error"

/-! ## Python string normalization used by `get_coordinates`

`city.strip().title()` / `country.strip().title()`
(src/weather_agent/agent.py lines 116-117). -/

/-- One step of Python `str.title()`: a letter that follows a letter is
lowercased, a letter that follows a non-letter is uppercased, other
characters pass through.  The `Bool` argument records whether the
previous character was a letter. -/
def titleChars : Bool → List Char → List Char
  | _, [] => []
  | prevAlpha, c :: cs =>
    if c.isAlpha then
      (if prevAlpha then c.toLower else c.toUpper) :: titleChars true cs
    else
      c :: titleChars false cs

/-- Python `str.title()`. -/
def pyTitle (s : String) : String := ⟨titleChars false s.data⟩

/-- Python `str.strip()`: drop whitespace from both ends. -/
def pyStrip (s : String) : String :=
  ⟨((s.data.dropWhile Char.isWhitespace).reverse.dropWhile Char.isWhitespace).reverse⟩

/-- `s.strip().title()`, the normalization applied to both `city` and
`country` in `get_coordinates`. -/
def pyNormalize (s : String) : String := pyTitle (pyStrip s)

/-! ## Resolver 1: `get_coordinates` (src/weather_agent/agent.py 100-139)

The external geocoder (`Nominatim(user_agent="geoapi").geocode`) is an
oracle from the query string to: a raised exception (`Except.error`), no
match (`.ok none`), or a location carrying latitude/longitude. -/

/-- A geocoder match: the `location.latitude` / `location.longitude`
attributes the source projects out of the provider's response. -/
structure GeoLocation where
  latitude : Rat
  longitude : Rat
deriving DecidableEq, Repr

/-- The query string built at src/weather_agent/agent.py lines 120-124:
`"{city}, {country}"` when the normalized country is truthy (non-empty),
else just the normalized city. -/
def coordinatesQuery (city country : String) : String :=
  let city_normalized := pyNormalize city
  let country_normalized := pyNormalize country
  if country_normalized ≠ "" then
    city_normalized ++ ", " ++ country_normalized
  else
    city_normalized

/-- `get_coordinates(city, country="")`: normalize, build the query,
geocode, and wrap the outcome as a tagged result; a raised exception is
caught and converted (lines 126-139). -/
def get_coordinates (geocode : String → Except String (Option GeoLocation))
    (city : String) (country : String) : ToolResult (Rat × Rat) :=
  let query := coordinatesQuery city country
  match geocode query with
  | .error e => .error ("An error occurred: " ++ e)
  | .ok none => .error ("Could not find coordinates for " ++ sq query ++ ".")
  | .ok (some location) => .success (location.latitude, location.longitude)
where
  /-- Wrap a string in the single quotes of the f-string
  `f"Could not find coordinates for '{query}'."`. -/
  sq (s : String) : String := "\x27" ++ s ++ "\x27"

/-! ## Resolver 2: `get_local_time_info` (src/weather_agent/agent.py 53-97)

Oracles: `tzAt` for `TimezoneFinder().timezone_at(lat, lng)` (may raise,
may return `None`), and `mkLocalTime` for
`datetime.now(pytz.timezone(tz)).isoformat(timespec="seconds")` (may
raise, e.g. on an unknown zone name). -/

/-- Payload of a successful timezone lookup: the dict keys `"timezone"`
and `"local_time"`. -/
structure TimeInfo where
  timezone : String
  local_time : String
deriving DecidableEq, Repr

/-- `get_local_time_info(latitude, longitude)`.  The Python truthiness
test `if not timezone_str` treats both `None` and `""` as failure; any
exception inside the `try` block becomes an error result. -/
def get_local_time_info (tzAt : Rat → Rat → Except String (Option String))
    (mkLocalTime : String → Except String String)
    (latitude longitude : Rat) : ToolResult TimeInfo :=
  match tzAt latitude longitude with
  | .error e => .error ("Failed to determine timezone or time: " ++ e)
  | .ok none => .error "Could not determine timezone for the coordinates."
  | .ok (some timezone_str) =>
    if timezone_str = "" then
      .error "Could not determine timezone for the coordinates."
    else
      match mkLocalTime timezone_str with
      | .error e => .error ("Failed to determine timezone or time: " ++ e)
      | .ok local_time => .success ⟨timezone_str, local_time⟩

/-! ## Resolver 3: `get_weather_forecast` (src/weather_agent/agent.py 142-204)

The Open-Meteo client call is an oracle from (latitude, longitude,
timezone) to either a raised exception or the hourly block of the first
response: `Time()`, `TimeEnd()`, `Interval()` (unix seconds) and the
temperature series `Variables(0).ValuesAsNumpy()`. -/

/-- The hourly block of the provider response consumed at
src/weather_agent/agent.py lines 178-189. -/
structure HourlyBlock where
  time : Int
  timeEnd : Int
  interval : Int
  temperatures : List Rat
deriving DecidableEq, Repr

/-- Number of points of `pd.date_range(start, end, freq, inclusive="left")`:
all points `start + k·step ≤ end`, with the right endpoint dropped when it
lands exactly on `end`.  Empty when the step is non-positive or the range
is reversed. -/
def dateRangeLeftCount (start stop step : Int) : Nat :=
  if step ≤ 0 then 0
  else if stop < start then 0
  else if step ∣ (stop - start) then ((stop - start) / step).toNat
  else ((stop - start) / step).toNat + 1

/-- `pd.date_range(start=Time, end=TimeEnd, freq=Interval seconds,
inclusive="left")` as a list of unix-second timestamps. -/
def dateRangeLeft (start stop step : Int) : List Int :=
  (List.range (dateRangeLeftCount start stop step)).map
    (fun k : Nat => start + step * (k : Int))

/-- One row of the hourly dataframe, as serialized by
`hourly_dataframe.to_dict(orient="records")`. -/
structure ForecastRecord where
  date : Int
  temperature_2m : Rat
deriving DecidableEq, Repr

/-- `get_weather_forecast(latitude, longitude, timezone)`: build the
left-inclusive date range, pair it with the temperature series into
dataframe records, and return them with the echoed coordinates.
`pd.DataFrame` raises when the two columns have different lengths; that
exception, like a network exception, is caught by the `except` block and
converted to an error result. -/
def get_weather_forecast
    (weather_api : Rat → Rat → String → Except String HourlyBlock)
    (latitude longitude : Rat) (timezone : String) :
    ToolResult ((Rat × Rat) × List ForecastRecord) :=
  match weather_api latitude longitude timezone with
  | .error e => .error ("Failed to retrieve weather data: " ++ e)
  | .ok hourly =>
    let dates := dateRangeLeft hourly.time hourly.timeEnd hourly.interval
    if dates.length = hourly.temperatures.length then
      .success ((latitude, longitude),
        (dates.zip hourly.temperatures).map (fun p => ⟨p.1, p.2⟩))
    else
      .error "Failed to retrieve weather data: All arrays must be of the same length"

/-! ## Configuration constants (src/api/main.py imports from `api.config`)

`api/config.py` is not part of the sources at hand; the spec only says
these are fixed strings (user id / session id defaults, app name, model
name).  Their concrete values are irrelevant to every claim. -/

/-- Modelled from the spec: `DEFAULT_USER_ID`, a fixed default user id
from the missing `api/config.py` ("user_id: string with default"). -/
def DEFAULT_USER_ID : String := "default_user"

/-- Modelled from the spec: `DEFAULT_SESSION_ID`, a fixed default session
id from the missing `api/config.py` ("session_id: string with default"). -/
def DEFAULT_SESSION_ID : String := "default_session"

/-- Modelled from the spec: `DEFAULT_APP_NAME`, the fixed app identity
from the missing `api/config.py` (the "(app, user, session id)" key always
uses this one app name). -/
def DEFAULT_APP_NAME : String := "weather_agent_app"

/-- Modelled from the spec: `DEFAULT_MODEL`, the model name constant from
the missing `api/config.py`. -/
def DEFAULT_MODEL : String := "gemini-2.0-flash"

/-! ## Request validation (src/api/main.py 28-39, `QueryRequest`)

A JSON body is a partial assignment of the three fields.  Pydantic
rejects a body whose required `query` field is missing and fills the two
defaults; `query: str` carries no `min_length` constraint, so any string
— including the empty one — validates. -/

/-- The raw `/query` request body: which of the three fields are present. -/
structure RawBody where
  query : Option String
  user_id : Option String
  session_id : Option String
deriving DecidableEq, Repr

/-- The validated `QueryRequest` model. -/
structure QueryRequest where
  query : String
  user_id : String
  session_id : String
deriving DecidableEq, Repr

/-- Pydantic validation of `QueryRequest`: `query` is required
(`Field(...)`), `user_id` and `session_id` default to the config
constants.  `none` is the 422 validation rejection. -/
def QueryRequest.validate (b : RawBody) : Option QueryRequest :=
  match b.query with
  | none => none
  | some q => some ⟨q, b.user_id.getD DEFAULT_USER_ID, b.session_id.getD DEFAULT_SESSION_ID⟩

/-! ## The in-memory session service (external `InMemorySessionService`)

The ADK session store keyed by (app, user id, session id); the app name
is always `DEFAULT_APP_NAME`, so keys reduce to (user id, session id).  A
stored session's `.id` equals the session-id component of its key.
`create_session(app_name, user_id)` — called *without* a session id at
src/api/main.py 124-126 — generates a fresh id; we model the generator
with a counter, mirroring the library's uuid draw. -/

structure SessionService where
  sessions : List (String × String)
  counter : Nat
deriving DecidableEq, Repr

/-- The session service before any session is created. -/
def SessionService.empty : SessionService := ⟨[], 0⟩

/-- The id generated for the `counter`-th created session (the library
draws a fresh uuid; distinct draws are distinct). -/
def genSessionId (n : Nat) : String := "generated-" ++ toString n

/-- `session_service.get_session(app_name, user_id, session_id)`: the
stored session for the key, whose `.id` is the requested session id, or
nothing. -/
def SessionService.get_session (svc : SessionService)
    (user_id session_id : String) : Option String :=
  if (user_id, session_id) ∈ svc.sessions then some session_id else none

/-- `session_service.create_session(app_name, user_id)`: store a session
under a freshly generated id and return that id with the new state. -/
def SessionService.create_session (svc : SessionService)
    (user_id : String) : String × SessionService :=
  let sid := genSessionId svc.counter
  (sid, ⟨(user_id, sid) :: svc.sessions, svc.counter + 1⟩)

/-- The try/except block at src/api/main.py 114-128: fetch the session
and adopt its id; on lookup failure (exception, or `.id` on a missing
session) create a new session for the user and adopt its generated id. -/
def resolveSession (svc : SessionService) (user_id session_id : String) :
    String × SessionService :=
  match svc.get_session user_id session_id with
  | some sid => (sid, svc)
  | none => svc.create_session user_id

/-! ## Event draining (src/api/main.py 138-150) -/

/-- An ADK event as the loop observes it: the `is_final_response()` flag
and the texts of `event.content.parts` (empty list when `content` is
missing, `None`, or has no parts — all falsy to the guard at line 143). -/
structure Event where
  is_final_response : Bool
  content_parts : List String
deriving DecidableEq, Repr

/-- The fixed sentinel initialized at src/api/main.py line 139. -/
def noResponseSentinel : String := "No response received."

/-- The draining loop: scan events in order; at the first event that is
flagged final *and* has truthy content parts, take `parts[0].text` and
break; otherwise fall through to the sentinel. -/
def drainEvents : List Event → String
  | [] => noResponseSentinel
  | e :: rest =>
    if e.is_final_response then
      match e.content_parts with
      | [] => drainEvents rest
      | t :: _ => t
    else
      drainEvents rest

/-- The guard under which the loop adopts an event's text: flagged final
with non-empty content parts. -/
def finalWithContent (e : Event) : Bool :=
  e.is_final_response && !e.content_parts.isEmpty

/-! ## The query runner (src/api/main.py 100-157, `run_query`)

The agent invocation `runner.run(...)` plus the iteration over its events
is an oracle producing either the event list or a raised exception; every
exception inside the outer `try` (session creation, content construction,
dispatch, draining) funnels into the single `except` at line 152 and is
re-raised as an HTTP 500 with a descriptive detail. -/

/-- What `run_query` does for the HTTP layer: a (response text, resolved
session id) pair, or an `HTTPException` with status and detail. -/
inductive RunOutcome where
  | ok (response : String) (session_id : String) : RunOutcome
  | httpError (statusCode : Nat) (detail : String) : RunOutcome
deriving DecidableEq, Repr

/-- `run_query(query, user_id, session_id)`.  `initialized` is the guard
`not runner or not session_service` at line 104; `runEvents` is the
dispatch/draining oracle.  The returned state keeps any session created
while resolving. -/
def run_query (svc : SessionService) (initialized : Bool)
    (user_id session_id : String)
    (runEvents : Except String (List Event)) : RunOutcome × SessionService :=
  if initialized then
    let resolved := resolveSession svc user_id session_id
    match runEvents with
    | .error e =>
      (.httpError 500 ("Error processing query: " ++ e), resolved.2)
    | .ok events =>
      (.ok (drainEvents events) resolved.1, resolved.2)
  else
    (.httpError 500 "Agent not properly initialized", svc)

/-! ## The `/query` endpoint (src/api/main.py 192-206, `process_query`) -/

/-- The HTTP-visible outcome of `POST /query`: a 200 `QueryResponse`
body, a 422 pydantic validation rejection, or an `HTTPException`. -/
inductive ApiResult where
  | ok (response : String) (user_id : String) (session_id : String) : ApiResult
  | validationError (statusCode : Nat) : ApiResult
  | httpError (statusCode : Nat) (detail : String) : ApiResult
deriving DecidableEq, Repr

/-- `process_query`: validate the body (FastAPI returns 422 before the
handler runs when validation fails), call `run_query`, and build the
`QueryResponse` from the response text, the request's user id, and the
resolved session id; an `HTTPException` from `run_query` is re-raised
unchanged. -/
def handle_query (b : RawBody) (svc : SessionService) (initialized : Bool)
    (runEvents : Except String (List Event)) : ApiResult × SessionService :=
  match QueryRequest.validate b with
  | none => (.validationError 422, svc)
  | some req =>
    match run_query svc initialized req.user_id req.session_id runEvents with
    | (.ok resp sid, svc') => (.ok resp req.user_id sid, svc')
    | (.httpError st d, svc') => (.httpError st d, svc')

/-! ## Startup (src/api/main.py 71-97 `initialize_agent`, 160-174 `lifespan`) -/

/-- The `LlmAgent` constructed at src/api/main.py 84-89. -/
structure LlmAgent where
  name : String
  model : String
  tools : List (String → String)
  description : String

/-- `get_weather(city)` (src/api/main.py 59-68), the single tool bound to
the HTTP-facing agent. -/
def get_weather (city : String) : String :=
  "The weather in " ++ city ++ " is sunny."

/-- The agent value built by `initialize_agent`. -/
def apiAgent : LlmAgent :=
  { name := "weather_agent"
    model := DEFAULT_MODEL
    tools := [get_weather]
    description := "A helpful assistant that can check weather." }

/-- The `Runner` constructed at src/api/main.py 95-97. -/
structure RunnerCfg where
  agent : LlmAgent
  app_name : String
  session_service : SessionService

/-- The module globals set by `initialize_agent`. -/
structure AppState where
  agent : LlmAgent
  runner : RunnerCfg
  session_service : SessionService

/-- `initialize_agent()`: raise `ValueError` when the credential is falsy
(absent or empty), else construct the agent, the session service, and the
runner once each, the runner sharing the agent and the session service. -/
def initialize_agent (google_api_key : Option String) : Except String AppState :=
  let failMsg :=
    "GOOGLE_API_KEY is not set. Please set it in your .env file or environment variables."
  match google_api_key with
  | none => .error failMsg
  | some k =>
    if k = "" then .error failMsg
    else
      let agent := apiAgent
      let session_service := SessionService.empty
      let runner : RunnerCfg := ⟨agent, DEFAULT_APP_NAME, session_service⟩
      .ok ⟨agent, runner, session_service⟩

/-- The startup half of `lifespan`: call `initialize_agent`; on any
exception, log and re-raise, so the process never starts serving. -/
def lifespan (google_api_key : Option String) : Except String AppState :=
  match initialize_agent google_api_key with
  | .ok st => .ok st
  | .error e => .error e

/-! ## Helper lemmas about the draining loop and session resolution -/

/-- The loop's answer when some event passes the adoption guard: the
first such event's first content part. -/
theorem drainEvents_eq_of_find (events : List Event) (e : Event)
    (h : events.find? finalWithContent = some e) :
    e.content_parts ≠ [] ∧
      drainEvents events = e.content_parts.headD noResponseSentinel := by
  induction events with
  | nil => simp [List.find?] at h
  | cons a rest ih =>
    cases hfin : a.is_final_response with
    | false =>
      have hp : ¬ finalWithContent a = true := by simp [finalWithContent, hfin]
      rw [List.find?_cons_of_neg _ hp] at h
      simpa [drainEvents, hfin] using ih h
    | true =>
      cases hps : a.content_parts with
      | nil =>
        have hp : ¬ finalWithContent a = true := by simp [finalWithContent, hps]
        rw [List.find?_cons_of_neg _ hp] at h
        simpa [drainEvents, hfin, hps] using ih h
      | cons t ts =>
        have hp : finalWithContent a = true := by simp [finalWithContent, hfin, hps]
        rw [List.find?_cons_of_pos _ hp, Option.some.injEq] at h
        subst h
        exact ⟨by simp [hps], by simp [drainEvents, hfin, hps]⟩

/-- The loop's answer when no event is flagged final: the sentinel. -/
theorem drainEvents_eq_sentinel_of_no_final (events : List Event)
    (h : ∀ e ∈ events, e.is_final_response = false) :
    drainEvents events = noResponseSentinel := by
  induction events with
  | nil => rfl
  | cons a rest ih =>
    have ha : a.is_final_response = false := h a (List.mem_cons_self a rest)
    simp only [drainEvents, ha, Bool.false_eq_true, if_false]
    exact ih (fun e he => h e (List.mem_cons_of_mem a he))

/-- Resolving again with the id a previous resolution returned hits the
stored session: the same id comes back and no session is created. -/
theorem resolveSession_passback (svc : SessionService) (u s : String) :
    resolveSession (resolveSession svc u s).2 u (resolveSession svc u s).1
      = ((resolveSession svc u s).1, (resolveSession svc u s).2) := by
  unfold resolveSession
  cases hget : svc.get_session u s with
  | some sid =>
    have hs : sid = s := by
      unfold SessionService.get_session at hget
      by_cases hmem : (u, s) ∈ svc.sessions
      · rw [if_pos hmem] at hget; cases hget; rfl
      · rw [if_neg hmem] at hget; cases hget
    subst hs
    have hmem : (u, sid) ∈ svc.sessions := by
      unfold SessionService.get_session at hget
      by_cases hmem : (u, sid) ∈ svc.sessions
      · exact hmem
      · rw [if_neg hmem] at hget; cases hget
    simp [SessionService.get_session, hmem]
  | none =>
    simp [SessionService.create_session, SessionService.get_session]

/-! ## Claims -/

/-- C3: the API module's only registered agent tool `get_weather` returns
exactly `"The weather in {city} is sunny."` for every city — it is a
total deterministic stub — and the HTTP-facing agent's tool list is
exactly `[get_weather]`, not the resolver pipeline. -/
theorem get_weather_stub_and_sole_binding :
    (∀ city : String, get_weather city = "The weather in " ++ city ++ " is sunny.")
    ∧ apiAgent.tools = [get_weather]
    ∧ apiAgent.tools.length = 1 := by
  exact ⟨fun _ => rfl, rfl, rfl⟩

/-- C4: when the event sequence contains an event flagged as a final
response with non-empty content, `run_query` answers with the text of the
first such event; later events cannot change the answer because the scan
is a first-match. -/
theorem run_query_returns_first_final_text (svc : SessionService)
    (user_id session_id : String) (events : List Event) (e : Event)
    (h : events.find? finalWithContent = some e) :
    e.content_parts ≠ [] ∧
      ∃ sid, (run_query svc true user_id session_id (.ok events)).1
        = .ok (e.content_parts.headD noResponseSentinel) sid := by
  obtain ⟨hne, hdrain⟩ := drainEvents_eq_of_find events e h
  refine ⟨hne, (resolveSession svc user_id session_id).1, ?_⟩
  simp [run_query, hdrain]

/-- Witness for C4 on a concrete stream: a final event with empty parts
is skipped, the first final event with content supplies the answer, and a
later final event does not override it. -/
theorem run_query_returns_first_final_text_witness :
    ([⟨true, []⟩, ⟨false, ["tool call"]⟩, ⟨true, ["It is sunny.", "extra"]⟩,
        ⟨true, ["later"]⟩] : List Event).find? finalWithContent
      = some ⟨true, ["It is sunny.", "extra"]⟩
    ∧ ((⟨true, ["It is sunny.", "extra"]⟩ : Event).content_parts ≠ [] ∧
        ∃ sid, (run_query SessionService.empty true "alice" "chat-1"
            (.ok [⟨true, []⟩, ⟨false, ["tool call"]⟩,
              ⟨true, ["It is sunny.", "extra"]⟩, ⟨true, ["later"]⟩])).1
          = .ok ((⟨true, ["It is sunny.", "extra"]⟩ : Event).content_parts.headD
              noResponseSentinel) sid) :=
  ⟨by decide,
    run_query_returns_first_final_text SessionService.empty "alice" "chat-1" _ _ (by decide)⟩

/-- C5: when the stream is exhausted without any event flagged as a
final response, `run_query` answers with the fixed sentinel
`"No response received."` instead of raising or returning empty. -/
theorem run_query_no_final_returns_sentinel (svc : SessionService)
    (user_id session_id : String) (events : List Event)
    (h : ∀ e ∈ events, e.is_final_response = false) :
    ∃ sid, (run_query svc true user_id session_id (.ok events)).1
      = .ok noResponseSentinel sid := by
  refine ⟨(resolveSession svc user_id session_id).1, ?_⟩
  simp [run_query, drainEvents_eq_sentinel_of_no_final events h]

/-- Witness for C5 on a concrete stream with only non-final events. -/
theorem run_query_no_final_returns_sentinel_witness :
    (∀ e ∈ ([⟨false, ["chunk"]⟩, ⟨false, []⟩] : List Event),
        e.is_final_response = false)
    ∧ ∃ sid, (run_query SessionService.empty true "alice" "chat-1"
        (.ok [⟨false, ["chunk"]⟩, ⟨false, []⟩])).1
      = .ok noResponseSentinel sid :=
  ⟨by decide,
    run_query_no_final_returns_sentinel SessionService.empty "alice" "chat-1" _ (by decide)⟩

/-- C1 counterexample: session resolution is not idempotent in the
caller's identifiers.  `create_session` is called without the requested
session id, so the new session is stored under a generated id; a second
call with the same fresh (user_id, session_id) pair misses the lookup
again and creates a second session with a different id. -/
theorem run_query_same_pair_two_sessions :
    (run_query SessionService.empty true "alice" "chat-1" (.ok [])).1
      = .ok noResponseSentinel "generated-0"
    ∧ (run_query (run_query SessionService.empty true "alice" "chat-1" (.ok [])).2
        true "alice" "chat-1" (.ok [])).1
      = .ok noResponseSentinel "generated-1"
    ∧ ("generated-1" : String) ≠ "generated-0" := by
  refine ⟨rfl, rfl, by decide⟩

/-- C1 amended: a first call with a fresh pair creates a session under a
generated id and returns that id; a second call that passes the returned
id back resolves to the same session id and creates no new session.
(Repeating the original identifiers instead creates a fresh session each
time.) -/
theorem run_query_passback_resolves_same_session (svc svc1 : SessionService)
    (user_id session_id response sid1 : String) (ev1 ev2 : List Event)
    (h : run_query svc true user_id session_id (.ok ev1) = (.ok response sid1, svc1)) :
    run_query svc1 true user_id sid1 (.ok ev2)
      = (.ok (drainEvents ev2) sid1, svc1) := by
  have hres : (drainEvents ev1 = response
        ∧ (resolveSession svc user_id session_id).1 = sid1)
      ∧ (resolveSession svc user_id session_id).2 = svc1 := by
    simpa [run_query, Prod.ext_iff] using congrArg (fun p => (p.1, p.2)) h
  have hpass := resolveSession_passback svc user_id session_id
  rw [hres.1.2, hres.2] at hpass
  simp [run_query, hpass]

/-- Witness for the amended C1 at a concrete fresh pair: the first call
resolves to the generated id, and passing it back reuses it. -/
theorem run_query_passback_resolves_same_session_witness :
    run_query SessionService.empty true "alice" "chat-1" (.ok [])
      = (.ok noResponseSentinel "generated-0", ⟨[("alice", "generated-0")], 1⟩)
    ∧ run_query (⟨[("alice", "generated-0")], 1⟩ : SessionService) true "alice"
        "generated-0" (.ok [⟨false, []⟩])
      = (.ok (drainEvents [⟨false, []⟩]) "generated-0",
          ⟨[("alice", "generated-0")], 1⟩) :=
  ⟨rfl,
    run_query_passback_resolves_same_session SessionService.empty _ "alice" "chat-1"
      noResponseSentinel "generated-0" [] [⟨false, []⟩] rfl⟩

/-- C2 counterexample: `query: str = Field(...)` carries no non-emptiness
constraint, so a body with an empty query string passes validation, the
runner is invoked (a session gets created), and the endpoint returns 200
— not a 4xx validation error. -/
theorem empty_query_string_passes_validation :
    QueryRequest.validate ⟨some "", none, none⟩
      = some ⟨"", DEFAULT_USER_ID, DEFAULT_SESSION_ID⟩
    ∧ (handle_query ⟨some "", none, none⟩ SessionService.empty true (.ok [])).1
      = .ok noResponseSentinel DEFAULT_USER_ID "generated-0"
    ∧ (handle_query ⟨some "", none, none⟩ SessionService.empty true (.ok [])).2
      ≠ SessionService.empty := by
  refine ⟨rfl, rfl, by decide⟩

/-- C2 amended: the facade rejects a body whose `query` field is missing
with a 422 validation error before the runner runs, but any present
string — including the empty string — validates, and the request then
reaches the runner (no validation error is possible). -/
theorem handle_query_rejects_only_missing_query (b : RawBody) (q : String)
    (svc : SessionService) (initialized : Bool)
    (runEvents : Except String (List Event))
    (h : b.query = some q) :
    handle_query ⟨none, b.user_id, b.session_id⟩ svc initialized runEvents
      = (.validationError 422, svc)
    ∧ ∀ st : Nat, (handle_query b svc initialized runEvents).1
      ≠ .validationError st := by
  constructor
  · rfl
  · intro st
    unfold handle_query QueryRequest.validate
    rw [h]
    cases hrun : run_query svc initialized (b.user_id.getD DEFAULT_USER_ID)
        (b.session_id.getD DEFAULT_SESSION_ID) runEvents with
    | mk out svc' =>
      cases out <;> simp [hrun]

/-- Witness for the amended C2 at the empty-query body: missing `query`
is rejected 422, while `query = ""` is never a validation error. -/
theorem handle_query_rejects_only_missing_query_witness :
    (⟨some "", none, none⟩ : RawBody).query = some ""
    ∧ (handle_query ⟨none, none, none⟩ SessionService.empty true (.ok [])
        = (.validationError 422, SessionService.empty)
      ∧ ∀ st : Nat,
          (handle_query ⟨some "", none, none⟩ SessionService.empty true (.ok [])).1
            ≠ .validationError st) :=
  ⟨rfl,
    handle_query_rejects_only_missing_query ⟨some "", none, none⟩ ""
      SessionService.empty true (.ok []) rfl⟩

/-- C9: the runner surfaces every failure to the HTTP caller as a uniform
status-500 service error with a descriptive detail: the
agent-not-initialized guard yields the fixed detail, an exception raised
during dispatch/draining is wrapped as `"Error processing query: …"`,
every outcome is either a success pair or a 500 error, and the endpoint
re-raises the runner's `HTTPException` unchanged. -/
theorem run_query_uniform_service_error (svc : SessionService)
    (user_id session_id q e : String) (runEvents : Except String (List Event)) :
    run_query svc false user_id session_id runEvents
      = (.httpError 500 "Agent not properly initialized", svc)
    ∧ (run_query svc true user_id session_id (.error e)).1
      = .httpError 500 ("Error processing query: " ++ e)
    ∧ ((∃ r sid, (run_query svc true user_id session_id runEvents).1 = .ok r sid)
      ∨ (∃ d, (run_query svc true user_id session_id runEvents).1 = .httpError 500 d))
    ∧ (handle_query ⟨some q, some user_id, some session_id⟩ svc true (.error e)).1
      = .httpError 500 ("Error processing query: " ++ e)
    ∧ (handle_query ⟨some q, some user_id, some session_id⟩ svc false runEvents).1
      = .httpError 500 "Agent not properly initialized" := by
  refine ⟨rfl, rfl, ?_, rfl, rfl⟩
  cases runEvents with
  | error e' => exact Or.inr ⟨"Error processing query: " ++ e', by simp [run_query]⟩
  | ok events =>
    exact Or.inl ⟨drainEvents events, (resolveSession svc user_id session_id).1,
      by simp [run_query]⟩

/-- C10: startup with an absent (or falsy empty) credential raises the
fixed `ValueError` message and never yields a served application state;
with a credential present, startup succeeds and the agent, runner, and
session service are constructed once, the runner sharing the one agent
and the one session service. -/
theorem startup_credential_gate (k : String) (hk : k ≠ "") :
    (∀ st, lifespan none ≠ .ok st)
    ∧ lifespan none = .error
        "GOOGLE_API_KEY is not set. Please set it in your .env file or environment variables."
    ∧ lifespan (some "") = .error
        "GOOGLE_API_KEY is not set. Please set it in your .env file or environment variables."
    ∧ ∃ st, lifespan (some k) = .ok st
        ∧ st.agent = apiAgent
        ∧ st.runner.agent = st.agent
        ∧ st.runner.session_service = st.session_service
        ∧ st.runner.app_name = DEFAULT_APP_NAME
        ∧ st.session_service = SessionService.empty := by
  refine ⟨(fun st hst => by cases hst), rfl, rfl, ?_⟩
  refine ⟨⟨apiAgent, ⟨apiAgent, DEFAULT_APP_NAME, SessionService.empty⟩,
    SessionService.empty⟩, ?_, rfl, rfl, rfl, rfl, rfl⟩
  simp [lifespan, initialize_agent, hk]

/-- Witness for C10 at a concrete non-empty credential. -/
theorem startup_credential_gate_witness :
    ("test-key" : String) ≠ ""
    ∧ ((∀ st, lifespan none ≠ .ok st)
      ∧ lifespan none = .error
          "GOOGLE_API_KEY is not set. Please set it in your .env file or environment variables."
      ∧ lifespan (some "") = .error
          "GOOGLE_API_KEY is not set. Please set it in your .env file or environment variables."
      ∧ ∃ st, lifespan (some "test-key") = .ok st
          ∧ st.agent = apiAgent
          ∧ st.runner.agent = st.agent
          ∧ st.runner.session_service = st.session_service
          ∧ st.runner.app_name = DEFAULT_APP_NAME
          ∧ st.session_service = SessionService.empty) :=
  ⟨by decide, startup_credential_gate "test-key" (by decide)⟩

/-- Every tagged result carries one of the two statuses. -/
theorem ToolResult.statusOf_cases {α : Type} (r : ToolResult α) :
    r.statusOf = "success" ∨ r.statusOf = "error" := by
  cases r with
  | success p => exact Or.inl rfl
  | error m => exact Or.inr rfl

/-- C6: each resolver is total — whatever the backend does, the result is
the tagged success/error shape — and a backend exception is converted to
the resolver's wrapped error message, never propagated. -/
theorem resolvers_total_and_tagged
    (tzAt : Rat → Rat → Except String (Option String))
    (mkLocalTime : String → Except String String)
    (geocode : String → Except String (Option GeoLocation))
    (weather_api : Rat → Rat → String → Except String HourlyBlock)
    (lat lon : Rat) (tz city country e : String) :
    (ToolResult.statusOf (get_local_time_info tzAt mkLocalTime lat lon) = "success"
      ∨ ToolResult.statusOf (get_local_time_info tzAt mkLocalTime lat lon) = "error")
    ∧ (ToolResult.statusOf (get_coordinates geocode city country) = "success"
      ∨ ToolResult.statusOf (get_coordinates geocode city country) = "error")
    ∧ (ToolResult.statusOf (get_weather_forecast weather_api lat lon tz) = "success"
      ∨ ToolResult.statusOf (get_weather_forecast weather_api lat lon tz) = "error")
    ∧ get_local_time_info (fun _ _ => .error e) mkLocalTime lat lon
      = .error ("Failed to determine timezone or time: " ++ e)
    ∧ get_coordinates (fun _ => .error e) city country
      = .error ("An error occurred: " ++ e)
    ∧ get_weather_forecast (fun _ _ _ => .error e) lat lon tz
      = .error ("Failed to retrieve weather data: " ++ e) :=
  ⟨ToolResult.statusOf_cases _, ToolResult.statusOf_cases _,
    ToolResult.statusOf_cases _, rfl, rfl, rfl⟩

/-- With a positive interval, the left-inclusive range from `T` to
`T + I·n` holds exactly the `n` timestamps `T + I·k`, `k < n`. -/
theorem dateRangeLeft_exact (T I : Int) (n : Nat) (hI : 0 < I) :
    dateRangeLeft T (T + I * n) I
      = (List.range n).map (fun k : Nat => T + I * (k : Int)) := by
  have h1 : ¬ I ≤ 0 := not_le.mpr hI
  have h2 : ¬ T + I * (n : Int) < T := by
    have : (0 : Int) ≤ I * n := mul_nonneg hI.le (Int.natCast_nonneg n)
    omega
  have h3 : T + I * (n : Int) - T = I * n := by ring
  have hc : dateRangeLeftCount T (T + I * n) I = n := by
    unfold dateRangeLeftCount
    rw [if_neg h1, if_neg h2, h3, if_pos (dvd_mul_right I (n : Int)),
      Int.mul_ediv_cancel_left _ hI.ne', Int.toNat_natCast]
  unfold dateRangeLeft
  rw [hc]

/-- C7: for a provider response whose hourly series starts at `T` with
interval `I > 0` and carries the temperatures `temps` up to
`T + I·|temps|`, the fetcher succeeds with exactly `|temps|` records in
order, the `i`-th carrying timestamp `T + I·i` and the `i`-th
temperature. -/
theorem get_weather_forecast_hourly_records (T I : Int) (temps : List Rat)
    (lat lon : Rat) (tz : String) (hI : 0 < I) :
    ∃ report,
      get_weather_forecast
          (fun _ _ _ => .ok ⟨T, T + I * temps.length, I, temps⟩) lat lon tz
        = .success ((lat, lon), report)
      ∧ report.length = temps.length
      ∧ (∀ i, (hi : i < report.length) → (report.get ⟨i, hi⟩).date = T + I * i)
      ∧ report.map ForecastRecord.temperature_2m = temps := by
  have hdr := dateRangeLeft_exact T I temps.length hI
  have hlen : (dateRangeLeft T (T + I * temps.length) I).length = temps.length := by
    rw [hdr]; simp
  refine ⟨((dateRangeLeft T (T + I * temps.length) I).zip temps).map
    (fun p => ⟨p.1, p.2⟩), ?_, ?_, ?_, ?_⟩
  · show (if (dateRangeLeft T (T + I * temps.length) I).length = temps.length
        then _ else _) = _
    rw [if_pos hlen]
  · simp [hlen]
  · intro i hi
    simp only [List.length_map, List.length_zip, hlen, Nat.min_self] at hi
    simp [List.get_eq_getElem, List.getElem_map, List.getElem_zip, hdr,
      List.getElem_range]
  · rw [show (fun p : Int × Rat => (⟨p.1, p.2⟩ : ForecastRecord))
        = (fun p => ⟨p.1, p.2⟩) from rfl, List.map_map]
    have : (ForecastRecord.temperature_2m ∘ fun p : Int × Rat => ⟨p.1, p.2⟩)
        = Prod.snd := rfl
    rw [this]
    exact List.map_snd_zip _ _ (le_of_eq hlen.symm)

/-- Witness for C7: two hourly points at unix seconds 0 and 3600. -/
theorem get_weather_forecast_hourly_records_witness :
    (0 : Int) < 3600
    ∧ ∃ report,
        get_weather_forecast
            (fun _ _ _ => .ok ⟨0, 0 + 3600 * ([10, 21/2] : List Rat).length, 3600,
              [10, 21/2]⟩) 52 13 "Europe/Berlin"
          = .success ((52, 13), report)
        ∧ report.length = ([10, 21/2] : List Rat).length
        ∧ (∀ i, (hi : i < report.length) →
            (report.get ⟨i, hi⟩).date = 0 + 3600 * i)
        ∧ report.map ForecastRecord.temperature_2m = [10, 21/2] :=
  ⟨by decide,
    get_weather_forecast_hourly_records 0 3600 [10, 21/2] 52 13 "Europe/Berlin"
      (by decide)⟩

/-- C8: `get_coordinates` reads its inputs only through
strip-and-title-case normalization, so any two spellings with the same
normal form produce the same query and the same result; a stubbed
geocoder returning a fixed location yields success with exactly that
(latitude, longitude); and the concrete spelling `" london "` queries the
geocoder with `"London"`, as the no-match error message exhibits. -/
theorem get_coordinates_normalized_query
    (geocode : String → Except String (Option GeoLocation))
    (city1 country1 city2 country2 : String) (loc : GeoLocation)
    (hc : pyNormalize city1 = pyNormalize city2)
    (hk : pyNormalize country1 = pyNormalize country2) :
    coordinatesQuery city1 country1 = coordinatesQuery city2 country2
    ∧ get_coordinates geocode city1 country1 = get_coordinates geocode city2 country2
    ∧ get_coordinates (fun _ => .ok (some loc)) city1 country1
      = .success (loc.latitude, loc.longitude)
    ∧ coordinatesQuery " london " "" = "London"
    ∧ get_coordinates (fun _ => .ok none) " london " ""
      = .error "Could not find coordinates for \x27London\x27." := by
  have hq : coordinatesQuery city1 country1 = coordinatesQuery city2 country2 := by
    unfold coordinatesQuery
    rw [hc, hk]
  refine ⟨hq, ?_, rfl, by decide, by decide⟩
  unfold get_coordinates
  rw [hq]

/-- Witness for C8: `" london "` (with stray spaces, lower case) and
`"London"` normalize alike, hence geocode identically; the stub returns
the fixed location for both. -/
theorem get_coordinates_normalized_query_witness :
    pyNormalize " london " = pyNormalize "London"
    ∧ pyNormalize "  " = pyNormalize ""
    ∧ (coordinatesQuery " london " "  " = coordinatesQuery "London" ""
      ∧ get_coordinates (fun _ => .ok (some ⟨51, 0⟩)) " london " "  "
        = get_coordinates (fun _ => .ok (some ⟨51, 0⟩)) "London" ""
      ∧ get_coordinates (fun _ => .ok (some (⟨51, 0⟩ : GeoLocation))) " london " "  "
        = .success ((⟨51, 0⟩ : GeoLocation).latitude, (⟨51, 0⟩ : GeoLocation).longitude)
      ∧ coordinatesQuery " london " "" = "London"
      ∧ get_coordinates (fun _ => .ok none) " london " ""
        = .error "Could not find coordinates for \x27London\x27.") :=
  ⟨by decide, by decide,
    get_coordinates_normalized_query (fun _ => .ok (some ⟨51, 0⟩)) " london " "  "
      "London" "" ⟨51, 0⟩ (by decide) (by decide)⟩

end AdkCourse
